import Mathlib

/-!
# bp250App front end: resource wrappers and chore routing

A shallow embedding of the three source files

* `app/entities/badge/badge.service.js`
* `app/entities/type-of-badge/type-of-badge.service.js`
* `app/entities/chore/chore.state.js`

JavaScript values are a small inductive type, thrown exceptions are the error side
of `Except`, and the collaborators the files receive by injection or from the global
`angular` object (`angular.fromJson`, `DateUtils.convertDateTimeFromServer`,
`Chore.get`) are parameters of the definitions that use them.
-/

set_option autoImplicit false

namespace Bp

/-! ## JavaScript values -/

/-- A JavaScript value, as far as the three files can observe one.  Objects are ordered
lists of own properties; arrays and dates are objects too and may carry named own
properties next to their elements or time value.  The code never inspects a number, so
the payload of `num` only tells numbers apart; it is kept as an integer. -/
inductive JsVal where
  | undefined : JsVal
  | null : JsVal
  | bool (b : Bool) : JsVal
  | num (n : Int) : JsVal
  | str (s : String) : JsVal
  | obj (props : List (String × JsVal)) : JsVal
  | arr (items : List JsVal) (props : List (String × JsVal)) : JsVal
  | date (ms : Int) (props : List (String × JsVal)) : JsVal

/-- The own properties of an object, in insertion order. -/
abbrev Props := List (String × JsVal)

/-- An exception thrown by JavaScript code. -/
inductive JsError where
  | typeError : JsError
  | syntaxError : JsError
  | thrown (what : String) : JsError
  deriving DecidableEq, Repr

namespace Props

/-- Property read on a list of own properties: the first entry named `k`, and
`undefined` when there is none (nothing named like the keys read here is inherited). -/
def get (k : String) : Props → JsVal
  | [] => JsVal.undefined
  | (k', v) :: rest => if k' = k then v else get k rest

/-- Property write: an existing entry keeps its place and gets the new value, a new
entry goes to the end. -/
def set (k : String) (v : JsVal) : Props → Props
  | [] => [(k, v)]
  | (k', v') :: rest => if k' = k then (k, v) :: rest else (k', v') :: set k v rest

/-- Whether there is an own property named `k`. -/
def has (k : String) : Props → Bool
  | [] => false
  | (k', _) :: rest => if k' = k then true else has k rest

end Props

namespace JsVal

/-- Whether the value has one of the types `JSON.parse` can return: null, boolean, number,
string, array or plain object.  Only the value itself is looked at, not what it contains. -/
def isJson : JsVal → Bool
  | undefined => false
  | null => true
  | bool _ => true
  | num _ => true
  | str _ => true
  | obj _ => true
  | arr _ _ => true
  | date _ _ => false

/-- Whether the value is a plain object. -/
def isObject : JsVal → Bool
  | obj _ => true
  | _ => false

/-- Whether the value is an array. -/
def isArray : JsVal → Bool
  | arr _ _ => true
  | _ => false

/-- Whether the value is a boolean, a number or a string. -/
def isPrimitive : JsVal → Bool
  | bool _ => true
  | num _ => true
  | str _ => true
  | _ => false

/-- JavaScript truthiness (`ToBoolean`): `undefined`, `null`, `false`, zero and the empty
string are falsy, every other value is truthy. -/
def truthy : JsVal → Bool
  | undefined => false
  | null => false
  | bool b => b
  | num n => decide (n ≠ 0)
  | str s => decide (s ≠ "")
  | obj _ => true
  | arr _ _ => true
  | date _ _ => true

/-- The named own properties of a value, array elements and built-in properties such as
`length` apart; primitives, `null` and `undefined` have none. -/
def ownProps : JsVal → Props
  | obj props => props
  | arr _ props => props
  | date _ props => props
  | _ => []

/-- Whether the value has an own property named `k`. -/
def hasOwn (v : JsVal) (k : String) : Bool :=
  Props.has k v.ownProps

/-- The value read by `v.k` once `v` is known not to be `null` or `undefined`. -/
def member (v : JsVal) (k : String) : JsVal :=
  Props.get k v.ownProps

/-- The expression `v.k`: a `TypeError` on `null` and `undefined`, the property's value
otherwise (`undefined` on a primitive, whose wrapper has no such property). -/
def getMember (v : JsVal) (k : String) : Except JsError JsVal :=
  match v with
  | undefined => Except.error JsError.typeError
  | null => Except.error JsError.typeError
  | _ => Except.ok (v.member k)

/-- The strict-mode assignment `v.k = x`, giving the updated `v`: a `TypeError` on
`null`, `undefined` and on a primitive, the object with the property written otherwise. -/
def setMember (v : JsVal) (k : String) (x : JsVal) : Except JsError JsVal :=
  match v with
  | obj props => Except.ok (obj (Props.set k x props))
  | arr items props => Except.ok (arr items (Props.set k x props))
  | date ms props => Except.ok (date ms (Props.set k x props))
  | _ => Except.error JsError.typeError

end JsVal

/-! ## Resource wrappers -/

/-- The global `angular.fromJson`, applied to a response body. -/
abbrev FromJson := String → Except JsError JsVal

/-- The injected `DateUtils.convertDateTimeFromServer`. -/
abbrev ConvertDateTime := JsVal → Except JsError JsVal

/-- The `transformResponse` function of a resource action. -/
abbrev TransformResponse := String → Except JsError JsVal

/-- One entry of the actions object handed to `$resource`. -/
structure Action where
  method : String
  isArray : Bool
  transformResponse : Option TransformResponse

/-- The three arguments of a `$resource(url, paramDefaults, actions)` call. -/
structure Resource where
  url : String
  paramDefaults : Props
  actions : List (String × Action)

/-- The action registered under `name`, if any. -/
def Resource.action (r : Resource) (name : String) : Option Action :=
  (r.actions.find? (fun p => p.1 = name)).map Prod.snd

/-- The `transformResponse` of the Badge `get` action (badge.service.js, lines 16-20). -/
def Badge_get_transformResponse (fromJson : FromJson) (convertDateTimeFromServer : ConvertDateTime)
    (data : String) : Except JsError JsVal := do
  let data ← fromJson data
  let earnedAt ← data.getMember "earnedAt"
  let converted ← convertDateTimeFromServer earnedAt
  data.setMember "earnedAt" converted

/-- The factory `Badge` (badge.service.js, lines 9-24). -/
def Badge (fromJson : FromJson) (convertDateTimeFromServer : ConvertDateTime) : Resource :=
  { url := "api/badges/:id"
    paramDefaults := []
    actions :=
      [ ("query", { method := "GET", isArray := true, transformResponse := none }),
        ("get", { method := "GET", isArray := false,
                  transformResponse := some (Badge_get_transformResponse fromJson convertDateTimeFromServer) }),
        ("update", { method := "PUT", isArray := false, transformResponse := none }) ] }

/-- The `transformResponse` of the TypeOfBadge `get` action
(type-of-badge.service.js, lines 16-19). -/
def TypeOfBadge_get_transformResponse (fromJson : FromJson) (data : String) :
    Except JsError JsVal := do
  let data ← fromJson data
  return data

/-- The factory `TypeOfBadge` (type-of-badge.service.js, lines 9-23). -/
def TypeOfBadge (fromJson : FromJson) : Resource :=
  { url := "api/type-of-badges/:id"
    paramDefaults := []
    actions :=
      [ ("query", { method := "GET", isArray := true, transformResponse := none }),
        ("get", { method := "GET", isArray := false,
                  transformResponse := some (TypeOfBadge_get_transformResponse fromJson) }),
        ("update", { method := "PUT", isArray := false, transformResponse := none }) ] }

/-- The `transformResponse` a resource declares for the action `name`, if any. -/
def Resource.transformOf (r : Resource) (name : String) : Option TransformResponse :=
  (r.action name).bind (fun a => a.transformResponse)

/-! ### Sample collaborators

Concrete stand-ins for the injected collaborators, used only to evaluate the definitions
above at concrete inputs. -/

/-- The response body `{"id":1,"earnedAt":"2024-01-01T10:00:00Z"}`. -/
def sampleBadgeBody : String :=
  "\x7b\"id\":1,\"earnedAt\":\"2024-01-01T10:00:00Z\"\x7d"

/-- The response body `{"id":1}`. -/
def sampleIdBody : String :=
  "\x7b\"id\":1\x7d"

/-- The response body `[{"id":1,"earnedAt":"2024-01-01T10:00:00Z"}]`. -/
def sampleListBody : String :=
  "[\x7b\"id\":1,\"earnedAt\":\"2024-01-01T10:00:00Z\"\x7d]"

/-- What `JSON.parse` gives on a handful of bodies; every other body is taken to be a
syntax error. -/
def sampleFromJson : FromJson := fun s =>
  if s = "null" then Except.ok JsVal.null
  else if s = "7" then Except.ok (JsVal.num 7)
  else if s = "[]" then Except.ok (JsVal.arr [] [])
  else if s = sampleIdBody then Except.ok (JsVal.obj [("id", JsVal.num 1)])
  else if s = sampleBadgeBody then
    Except.ok (JsVal.obj [("id", JsVal.num 1), ("earnedAt", JsVal.str "2024-01-01T10:00:00Z")])
  else if s = sampleListBody then
    Except.ok (JsVal.arr
      [JsVal.obj [("id", JsVal.num 1), ("earnedAt", JsVal.str "2024-01-01T10:00:00Z")]] [])
  else Except.error JsError.syntaxError

/-- A date conversion that knows one timestamp and answers `null` for everything else. -/
def sampleConvert : ConvertDateTime := fun v =>
  match v with
  | JsVal.str s =>
    if s = "2024-01-01T10:00:00Z" then Except.ok (JsVal.date 1704103200000 [])
    else Except.ok JsVal.null
  | _ => Except.ok JsVal.null

/-! ## Chore routing -/

/-- The `$stateParams` object handed to resolve functions and `onEnter` hooks. -/
abbrev StateParams := Props

/-- What the routing code can change outside itself: the log of the arguments of the
`Chore.get` calls made so far, oldest first. -/
structure World where
  choreGetCalls : List JsVal

/-- The injected `Chore` resource.  Its factory is not part of these files, so the value
`Chore.get(arg)` returns is a parameter; it may depend on what was called before. -/
structure ChoreService where
  get : World → JsVal → JsVal

/-- The call `Chore.get(arg)`: answered by the service and appended to the log. -/
def ChoreService.callGet (Chore : ChoreService) (arg : JsVal) (w : World) : JsVal × World :=
  (Chore.get w arg, { choreGetCalls := w.choreGetCalls ++ [arg] })

/-- A resolve function once its `$stateParams` are fixed: it runs against the injected
`Chore` service and returns the resolved value. -/
abbrev Resolver := ChoreService → World → JsVal × World

/-- One call `$state.go(to, params, options)`; an argument that is left out is `none`. -/
structure GoCall where
  toState : String
  params : Option JsVal
  options : Option Props

/-- The object handed to `$uibModal.open`; `backdrop` is absent from the delete dialog. -/
structure ModalOptions where
  templateUrl : String
  controller : String
  controllerAs : String
  backdrop : Option String
  size : String
  resolve : List (String × Resolver)

/-- How the `result` promise of an opened modal settles: resolved when the dialog is
closed with a result, rejected when it is dismissed. -/
inductive ModalResult where
  | resolved : ModalResult
  | rejected : ModalResult
  deriving DecidableEq, Repr

/-- What an `onEnter` hook does: it opens one modal and registers with
`.result.then(onResolved, onRejected)` the `$state.go` calls of the two callbacks. -/
structure ModalWiring where
  opened : ModalOptions
  onResolved : List GoCall
  onRejected : List GoCall

/-- The `$state.go` calls made once the modal result settles. -/
def ModalWiring.handle (m : ModalWiring) : ModalResult → List GoCall
  | ModalResult.resolved => m.onResolved
  | ModalResult.rejected => m.onRejected

/-- One entry of a state's `views` object. -/
structure View where
  templateUrl : String
  controller : String
  controllerAs : String
  deriving DecidableEq, Repr

/-- A state's `data` object. -/
structure StateData where
  authorities : List String
  pageTitle : Option String
  deriving DecidableEq, Repr

/-- The configuration object of one `$stateProvider.state(name, config)` call; a key the
object literal does not have is `none`. -/
structure StateDecl where
  parent : String
  url : String
  data : StateData
  views : Option (List (String × View))
  resolve : Option (List (String × (StateParams → Resolver)))
  onEnter : Option (StateParams → ModalWiring)

/-- The states registered with `$stateProvider`, oldest first. -/
abbrev StateProvider := List (String × StateDecl)

/-- The chained call `$stateProvider.state(name, config)`. -/
def StateProvider.state (p : StateProvider) (name : String) (config : StateDecl) :
    StateProvider :=
  p ++ [(name, config)]

/-- The `entity` resolve of state `chore-detail` (chore.state.js, lines 44-46). -/
def chore_detail_resolve_entity (stateParams : StateParams) : Resolver :=
  fun Chore => Chore.callGet (JsVal.obj [("id", Props.get "id" stateParams)])

/-- The `onEnter` hook of state `chore.new` (chore.state.js, lines 55-75). -/
def chore_new_onEnter (_stateParams : StateParams) : ModalWiring :=
  { opened :=
      { templateUrl := "app/entities/chore/chore-dialog.html"
        controller := "ChoreDialogController"
        controllerAs := "vm"
        backdrop := some "static"
        size := "lg"
        resolve :=
          [ ("entity", fun _Chore w =>
              (JsVal.obj [("date", JsVal.null), ("id", JsVal.null)], w)) ] }
    onResolved :=
      [ { toState := "chore", params := some JsVal.null,
          options := some [("reload", JsVal.bool true)] } ]
    onRejected := [ { toState := "chore", params := none, options := none } ] }

/-- The `onEnter` hook of state `chore.edit` (chore.state.js, lines 83-100). -/
def chore_edit_onEnter (stateParams : StateParams) : ModalWiring :=
  { opened :=
      { templateUrl := "app/entities/chore/chore-dialog.html"
        controller := "ChoreDialogController"
        controllerAs := "vm"
        backdrop := some "static"
        size := "lg"
        resolve :=
          [ ("entity", fun Chore =>
              Chore.callGet (JsVal.obj [("id", Props.get "id" stateParams)])) ] }
    onResolved :=
      [ { toState := "chore", params := some JsVal.null,
          options := some [("reload", JsVal.bool true)] } ]
    onRejected := [ { toState := "^", params := none, options := none } ] }

/-- The `onEnter` hook of state `chore.delete` (chore.state.js, lines 108-124). -/
def chore_delete_onEnter (stateParams : StateParams) : ModalWiring :=
  { opened :=
      { templateUrl := "app/entities/chore/chore-delete-dialog.html"
        controller := "ChoreDeleteController"
        controllerAs := "vm"
        backdrop := none
        size := "md"
        resolve :=
          [ ("entity", fun Chore =>
              Chore.callGet (JsVal.obj [("id", Props.get "id" stateParams)])) ] }
    onResolved :=
      [ { toState := "chore", params := some JsVal.null,
          options := some [("reload", JsVal.bool true)] } ]
    onRejected := [ { toState := "^", params := none, options := none } ] }

/-- State `chore` (chore.state.js, lines 12-28). -/
def chore_state : StateDecl :=
  { parent := "entity"
    url := "/chore"
    data := { authorities := ["ROLE_USER"], pageTitle := some "Chores" }
    views := some
      [ ("content@", { templateUrl := "app/entities/chore/chores.html"
                       controller := "ChoreController"
                       controllerAs := "vm" }) ]
    resolve := some []
    onEnter := none }

/-- State `chore-detail` (chore.state.js, lines 29-48). -/
def chore_detail_state : StateDecl :=
  { parent := "entity"
    url := "/chore/\x7bid\x7d"
    data := { authorities := ["ROLE_USER"], pageTitle := some "Chore" }
    views := some
      [ ("content@", { templateUrl := "app/entities/chore/chore-detail.html"
                       controller := "ChoreDetailController"
                       controllerAs := "vm" }) ]
    resolve := some [("entity", chore_detail_resolve_entity)]
    onEnter := none }

/-- State `chore.new` (chore.state.js, lines 49-76). -/
def chore_new_state : StateDecl :=
  { parent := "chore"
    url := "/new"
    data := { authorities := ["ROLE_USER"], pageTitle := none }
    views := none
    resolve := none
    onEnter := some chore_new_onEnter }

/-- State `chore.edit` (chore.state.js, lines 77-101). -/
def chore_edit_state : StateDecl :=
  { parent := "chore"
    url := "/\x7bid\x7d/edit"
    data := { authorities := ["ROLE_USER"], pageTitle := none }
    views := none
    resolve := none
    onEnter := some chore_edit_onEnter }

/-- State `chore.delete` (chore.state.js, lines 102-125). -/
def chore_delete_state : StateDecl :=
  { parent := "chore"
    url := "/\x7bid\x7d/delete"
    data := { authorities := ["ROLE_USER"], pageTitle := none }
    views := none
    resolve := none
    onEnter := some chore_delete_onEnter }

/-- The function `stateConfig` (chore.state.js, lines 10-126): five chained
registrations on the injected `$stateProvider`. -/
def stateConfig (stateProvider : StateProvider) : StateProvider :=
  ((((stateProvider.state "chore" chore_state).state "chore-detail" chore_detail_state).state
    "chore.new" chore_new_state).state "chore.edit" chore_edit_state).state
    "chore.delete" chore_delete_state

/-- The configuration registered under `name`, if any. -/
def StateProvider.find (p : StateProvider) (name : String) : Option StateDecl :=
  (List.find? (fun e => e.1 = name) p).map Prod.snd

/-- The `onEnter` hook registered for state `name` by `stateConfig`, run with the given
`$stateParams`. -/
def enteredModal (name : String) (stateParams : StateParams) : Option ModalWiring :=
  ((stateConfig []).find name).bind (fun d => d.onEnter.map (fun hook => hook stateParams))

/-- The `$state.go` calls state `name` makes when the result of its modal settles. -/
def resultHandler (name : String) (stateParams : StateParams) (r : ModalResult) :
    Option (List GoCall) :=
  (enteredModal name stateParams).map (fun m => m.handle r)

/-- The resolve function registered as `key` on state `name` itself. -/
def stateResolve (name key : String) (stateParams : StateParams) : Option Resolver :=
  (((stateConfig []).find name).bind (fun d => d.resolve)).bind
    (fun rs => (List.find? (fun e => e.1 = key) rs).map (fun e => e.2 stateParams))

/-- The resolve function registered as `key` on the modal state `name` opens. -/
def modalResolve (name key : String) (stateParams : StateParams) : Option Resolver :=
  (enteredModal name stateParams).bind
    (fun m => (List.find? (fun e => e.1 = key) m.opened.resolve).map Prod.snd)

/-- The states of `stateConfig` that open a modal on entry. -/
def mutatingStates : List String :=
  ((stateConfig []).filter (fun e => e.2.onEnter.isSome)).map Prod.fst

/-! ### Router behaviour the handlers rely on

The router (`$state`) is a library and not part of these files; the two definitions below
model what it does with a `$state.go` call and embed no function of the repository.  A
target `^` names the parent of the state the call is made from, any other target used
here is an absolute state name.  The router keeps the states the old and the new path
share unless the options of the call carry a truthy `reload`; a call without options, or
whose options have no `reload`, reloads nothing by force. -/

/-- Model of the router: the state a `$state.go` call reaches when made while `current` is
the active state. -/
def GoCall.target (g : GoCall) (current : String) : Option String :=
  if g.toState = "^" then ((stateConfig []).find current).map (fun d => d.parent)
  else some g.toState

/-- Model of the router: whether a `$state.go` call forces a reload, which it does when
its options are given and their `reload` is truthy. -/
def GoCall.forcesReload (g : GoCall) : Bool :=
  match g.options with
  | some o => (Props.get "reload" o).truthy
  | none => false

/-- The claim that state `name`, on modal outcome `r`, hands control back to the list
state `chore` and forces its reload. -/
def ReturnsToListReloading (name : String) (stateParams : StateParams) (r : ModalResult) :
    Prop :=
  ∃ g, resultHandler name stateParams r = some [g] ∧ g.target name = some "chore" ∧
    g.forcesReload = true

/-! ## Theorems: chore routing -/

/-- C1: for `chore.new`, `chore.edit` and `chore.delete`, a resolved modal result makes the
handler call `$state.go('chore', null, {reload: true})`; a rejected one makes it call
`$state.go` with a target only and no options, the target being `'chore'` for `chore.new`
and `'^'` for `chore.edit` and `chore.delete`. -/
theorem result_handlers_navigate (stateParams : StateParams) :
    (resultHandler "chore.new" stateParams ModalResult.resolved =
        some [{ toState := "chore", params := some JsVal.null,
                options := some [("reload", JsVal.bool true)] }] ∧
      resultHandler "chore.edit" stateParams ModalResult.resolved =
        some [{ toState := "chore", params := some JsVal.null,
                options := some [("reload", JsVal.bool true)] }] ∧
      resultHandler "chore.delete" stateParams ModalResult.resolved =
        some [{ toState := "chore", params := some JsVal.null,
                options := some [("reload", JsVal.bool true)] }]) ∧
    (resultHandler "chore.new" stateParams ModalResult.rejected =
        some [{ toState := "chore", params := none, options := none }] ∧
      resultHandler "chore.edit" stateParams ModalResult.rejected =
        some [{ toState := "^", params := none, options := none }] ∧
      resultHandler "chore.delete" stateParams ModalResult.rejected =
        some [{ toState := "^", params := none, options := none }]) :=
  ⟨⟨rfl, rfl, rfl⟩, rfl, rfl, rfl⟩

/-- C2, as stated, fails: `chore.new` opens a modal on entry, and when that modal is
dismissed the handler calls `$state.go('chore')` without options, which forces no reload. -/
theorem cancel_forces_no_reload :
    "chore.new" ∈ mutatingStates ∧
    resultHandler "chore.new" [] ModalResult.rejected =
      some [{ toState := "chore", params := none, options := none }] ∧
    GoCall.forcesReload { toState := "chore", params := none, options := none } = false ∧
    ¬ ReturnsToListReloading "chore.new" [] ModalResult.rejected := by
  refine ⟨by decide, rfl, rfl, ?_⟩
  rintro ⟨g, hg, -, hr⟩
  have h : resultHandler "chore.new" [] ModalResult.rejected =
      some [{ toState := "chore", params := none, options := none }] := rfl
  rw [h] at hg
  simp only [Option.some.injEq, List.cons.injEq, and_true] at hg
  subst hg
  simp [GoCall.forcesReload] at hr

/-- C2, amended: every state that opens a modal on entry (`chore.new`, `chore.edit`,
`chore.delete`) makes, on either modal outcome, exactly one `$state.go` call whose target,
with `^` read relative to that state, is the list state `chore`.  The call forces a reload
exactly when the modal result was resolved: on a resolved result its options are
`{reload: true}`, on a rejected result it passes no options at all, hence no `reload`
option. -/
theorem handlers_return_to_list (name : String) (hname : name ∈ mutatingStates)
    (stateParams : StateParams) (r : ModalResult) :
    ∃ g, resultHandler name stateParams r = some [g] ∧ g.target name = some "chore" ∧
      (g.forcesReload = true ↔ r = ModalResult.resolved) ∧
      (r = ModalResult.resolved → g.options = some [("reload", JsVal.bool true)]) ∧
      (r = ModalResult.rejected → g.options = none) := by
  have hm : mutatingStates = ["chore.new", "chore.edit", "chore.delete"] := by decide
  rw [hm] at hname
  simp only [List.mem_cons, List.mem_singleton, List.not_mem_nil, or_false] at hname
  rcases hname with rfl | rfl | rfl <;> cases r
  · exact ⟨_, rfl, rfl, by simp [GoCall.forcesReload, Props.get, JsVal.truthy],
      fun _ => rfl, fun h => ModalResult.noConfusion h⟩
  · exact ⟨_, rfl, rfl, by simp [GoCall.forcesReload], fun h => ModalResult.noConfusion h, fun _ => rfl⟩
  · exact ⟨_, rfl, rfl, by simp [GoCall.forcesReload, Props.get, JsVal.truthy],
      fun _ => rfl, fun h => ModalResult.noConfusion h⟩
  · exact ⟨_, rfl, rfl, by simp [GoCall.forcesReload], fun h => ModalResult.noConfusion h, fun _ => rfl⟩
  · exact ⟨_, rfl, rfl, by simp [GoCall.forcesReload, Props.get, JsVal.truthy],
      fun _ => rfl, fun h => ModalResult.noConfusion h⟩
  · exact ⟨_, rfl, rfl, by simp [GoCall.forcesReload], fun h => ModalResult.noConfusion h, fun _ => rfl⟩

/-- Witness for C2: dismissing the `chore.edit` modal. -/
theorem handlers_return_to_list_witness :
    "chore.edit" ∈ mutatingStates ∧
    ∃ g, resultHandler "chore.edit" [("id", JsVal.str "7")] ModalResult.rejected = some [g] ∧
      g.target "chore.edit" = some "chore" ∧
      (g.forcesReload = true ↔ ModalResult.rejected = ModalResult.resolved) ∧
      (ModalResult.rejected = ModalResult.resolved →
        g.options = some [("reload", JsVal.bool true)]) ∧
      (ModalResult.rejected = ModalResult.rejected → g.options = none) :=
  ⟨by decide,
    handlers_return_to_list "chore.edit" (by decide) [("id", JsVal.str "7")]
      ModalResult.rejected⟩

/-- C5: whatever the state parameters, the injected `Chore` service and the calls made
before, the `entity` resolve of the `chore.new` modal returns the record with exactly the
two fields `date = null` and `id = null`, and makes no call. -/
theorem new_entity_is_blank (stateParams : StateParams) (Chore : ChoreService) (w : World) :
    ∃ r, modalResolve "chore.new" "entity" stateParams = some r ∧
      r Chore w = (JsVal.obj [("date", JsVal.null), ("id", JsVal.null)], w) :=
  ⟨_, rfl, rfl⟩

/-- C6: when the state parameter `id` is `id`, the `entity` resolve of `chore-detail` and the
`entity` resolves of the `chore.edit` and `chore.delete` modals each return what
`Chore.get` answers for the argument `{id: id}` and add exactly that one call to the log;
state `chore` has an empty `resolve` object and no `onEnter` hook. -/
theorem entity_resolved_by_one_get (stateParams : StateParams) (id : JsVal)
    (hid : Props.get "id" stateParams = id) (Chore : ChoreService) (w : World) :
    (∃ r, stateResolve "chore-detail" "entity" stateParams = some r ∧
      r Chore w = (Chore.get w (JsVal.obj [("id", id)]),
        { choreGetCalls := w.choreGetCalls ++ [JsVal.obj [("id", id)]] })) ∧
    (∃ r, modalResolve "chore.edit" "entity" stateParams = some r ∧
      r Chore w = (Chore.get w (JsVal.obj [("id", id)]),
        { choreGetCalls := w.choreGetCalls ++ [JsVal.obj [("id", id)]] })) ∧
    (∃ r, modalResolve "chore.delete" "entity" stateParams = some r ∧
      r Chore w = (Chore.get w (JsVal.obj [("id", id)]),
        { choreGetCalls := w.choreGetCalls ++ [JsVal.obj [("id", id)]] })) ∧
    ((stateConfig []).find "chore").map
      (fun d => (d.resolve.map List.length, d.onEnter.isSome)) = some (some 0, false) := by
  subst hid
  exact ⟨⟨_, rfl, rfl⟩, ⟨_, rfl, rfl⟩, ⟨_, rfl, rfl⟩, rfl⟩

/-- Witness for C6: the state parameters `{id: "7"}`, a service
that answers every `get` with its argument, and an empty call log. -/
theorem entity_resolved_by_one_get_witness :
    Props.get "id" [("id", JsVal.str "7")] = JsVal.str "7" ∧
    ∃ r, modalResolve "chore.edit" "entity" [("id", JsVal.str "7")] = some r ∧
      r { get := fun _ arg => arg } { choreGetCalls := [] } =
        (JsVal.obj [("id", JsVal.str "7")],
          { choreGetCalls := [] ++ [JsVal.obj [("id", JsVal.str "7")]] }) :=
  ⟨rfl,
    (entity_resolved_by_one_get [("id", JsVal.str "7")] (JsVal.str "7") rfl
      { get := fun _ arg => arg } { choreGetCalls := [] }).2.1⟩

/-- C8: `stateConfig` registers, after what the provider already holds, exactly the five
states `chore`, `chore-detail`, `chore.new`, `chore.edit` and `chore.delete`, each with
`data.authorities` equal to `['ROLE_USER']`. -/
theorem every_state_requires_role_user (stateProvider : StateProvider) :
    (stateConfig stateProvider).map (fun e => (e.1, e.2.data.authorities)) =
      stateProvider.map (fun e => (e.1, e.2.data.authorities)) ++
        [("chore", ["ROLE_USER"]), ("chore-detail", ["ROLE_USER"]),
         ("chore.new", ["ROLE_USER"]), ("chore.edit", ["ROLE_USER"]),
         ("chore.delete", ["ROLE_USER"])] := by
  simp [stateConfig, StateProvider.state, chore_state, chore_detail_state, chore_new_state,
    chore_edit_state, chore_delete_state]

/-! ## Theorems: resource wrappers -/

namespace Props

theorem get_set_same (k : String) (v : JsVal) (ps : Props) : get k (set k v ps) = v := by
  induction ps with
  | nil => simp [set, get]
  | cons p rest ih =>
    obtain ⟨k', v'⟩ := p
    by_cases h : k' = k
    · simp [set, get, h]
    · simp [set, get, h, ih]

theorem get_set_other (k k₂ : String) (v : JsVal) (ps : Props) (hne : k₂ ≠ k) :
    get k₂ (set k v ps) = get k₂ ps := by
  induction ps with
  | nil => simp [set, get, Ne.symm hne]
  | cons p rest ih =>
    obtain ⟨k', v'⟩ := p
    by_cases h : k' = k
    · subst h
      simp [set, get, Ne.symm hne]
    · by_cases h₂ : k' = k₂
      · subst h₂
        simp [set, get, hne]
      · simp [set, get, h, h₂, ih]

theorem has_set_same (k : String) (v : JsVal) (ps : Props) : has k (set k v ps) = true := by
  induction ps with
  | nil => simp [set, has]
  | cons p rest ih =>
    obtain ⟨k', v'⟩ := p
    by_cases h : k' = k
    · simp [set, has, h]
    · simp [set, has, h, ih]

theorem has_set_other (k k₂ : String) (v : JsVal) (ps : Props) (hne : k₂ ≠ k) :
    has k₂ (set k v ps) = has k₂ ps := by
  induction ps with
  | nil => simp [set, has, Ne.symm hne]
  | cons p rest ih =>
    obtain ⟨k', v'⟩ := p
    by_cases h : k' = k
    · subst h
      simp [set, has, Ne.symm hne]
    · by_cases h₂ : k' = k₂
      · subst h₂
        simp [set, has, hne]
      · simp [set, has, h, h₂, ih]

theorem get_of_has_eq_false (k : String) (ps : Props) (h : has k ps = false) :
    get k ps = JsVal.undefined := by
  induction ps with
  | nil => rfl
  | cons p rest ih =>
    obtain ⟨k', v'⟩ := p
    by_cases hk : k' = k
    · simp [has, hk] at h
    · simp only [has, hk, if_false] at h
      simp [get, hk, ih h]

theorem set_of_has_eq_false (k : String) (v : JsVal) (ps : Props) (h : has k ps = false) :
    set k v ps = ps ++ [(k, v)] := by
  induction ps with
  | nil => rfl
  | cons p rest ih =>
    obtain ⟨k', v'⟩ := p
    by_cases hk : k' = k
    · simp [has, hk] at h
    · simp only [has, hk, if_false] at h
      simp [set, hk, ih h]

end Props

/-- On a body that parses to a plain object the Badge `get` transform is the date
conversion of the parsed `earnedAt`, followed by the write of its result. -/
theorem badge_get_on_object (fromJson : FromJson) (convert : ConvertDateTime) (raw : String)
    (fields : Props) (hparse : fromJson raw = Except.ok (JsVal.obj fields)) :
    Badge_get_transformResponse fromJson convert raw =
      (convert (Props.get "earnedAt" fields)).map
        (fun d => JsVal.obj (Props.set "earnedAt" d fields)) := by
  simp only [Badge_get_transformResponse, hparse, bind, Except.bind, JsVal.getMember,
    JsVal.member, JsVal.ownProps]
  cases convert (Props.get "earnedAt" fields) <;> rfl

/-- Once the body has parsed to `v`, the Badge `get` transform reads `v.earnedAt`, converts
it and writes the result back. -/
theorem badge_get_of_parse (fromJson : FromJson) (convert : ConvertDateTime) (raw : String)
    (v : JsVal) (hparse : fromJson raw = Except.ok v) :
    Badge_get_transformResponse fromJson convert raw =
      (v.getMember "earnedAt" >>= fun e => convert e >>= fun c => v.setMember "earnedAt" c) := by
  simp [Badge_get_transformResponse, hparse, bind, Except.bind]

/-- Every value the sample parser returns is a JSON value. -/
theorem sampleFromJson_isJson (s : String) (v : JsVal)
    (h : sampleFromJson s = Except.ok v) : v.isJson = true := by
  unfold sampleFromJson at h
  split_ifs at h <;> (injection h with h; subst h; rfl)

/-- C3: on a body that parses to a JSON object, the Badge `get` transform (the one the
`Badge` resource declares for `get`) is the date conversion of the parsed `earnedAt`
followed by the write of its result; so whenever the conversion returns `d`, the transform
returns the parsed object with `earnedAt` equal to `d` and with every other field, present
or absent, as it was parsed. -/
theorem badge_get_converts_earnedAt (fromJson : FromJson) (convert : ConvertDateTime)
    (raw : String) (fields : Props) (hparse : fromJson raw = Except.ok (JsVal.obj fields)) :
    (Badge fromJson convert).transformOf "get" =
      some (Badge_get_transformResponse fromJson convert) ∧
    Badge_get_transformResponse fromJson convert raw =
      (convert (Props.get "earnedAt" fields)).map
        (fun d => JsVal.obj (Props.set "earnedAt" d fields)) ∧
    ∀ d, convert (Props.get "earnedAt" fields) = Except.ok d →
      ∃ out, Badge_get_transformResponse fromJson convert raw = Except.ok (JsVal.obj out) ∧
        Props.get "earnedAt" out = d ∧
        ∀ k, k ≠ "earnedAt" →
          Props.get k out = Props.get k fields ∧ Props.has k out = Props.has k fields := by
  refine ⟨rfl, badge_get_on_object fromJson convert raw fields hparse, ?_⟩
  intro d hd
  refine ⟨Props.set "earnedAt" d fields, ?_, Props.get_set_same _ _ _, ?_⟩
  · rw [badge_get_on_object fromJson convert raw fields hparse, hd]
    rfl
  · intro k hk
    exact ⟨Props.get_set_other _ _ _ _ hk, Props.has_set_other _ _ _ _ hk⟩

/-- Witness for C3: the body
`{"id":1,"earnedAt":"2024-01-01T10:00:00Z"}` yields `id = 1` and the converted date. -/
theorem badge_get_converts_earnedAt_witness :
    sampleFromJson sampleBadgeBody =
      Except.ok (JsVal.obj [("id", JsVal.num 1), ("earnedAt", JsVal.str "2024-01-01T10:00:00Z")]) ∧
    Badge_get_transformResponse sampleFromJson sampleConvert sampleBadgeBody =
      Except.ok (JsVal.obj [("id", JsVal.num 1), ("earnedAt", JsVal.date 1704103200000 [])]) :=
  ⟨rfl,
    (badge_get_converts_earnedAt sampleFromJson sampleConvert sampleBadgeBody
      [("id", JsVal.num 1), ("earnedAt", JsVal.str "2024-01-01T10:00:00Z")] rfl).2.1.trans rfl⟩

/-- C9: on a body that parses to a JSON object without an `earnedAt` field, the Badge `get`
transform is the date conversion of `undefined` followed by the addition of an `earnedAt`
field holding its result; and whatever the parsed object, a record the transform returns
has an `earnedAt` key. -/
theorem badge_get_adds_missing_earnedAt (fromJson : FromJson) (convert : ConvertDateTime)
    (raw : String) (fields : Props) (hparse : fromJson raw = Except.ok (JsVal.obj fields))
    (habsent : Props.has "earnedAt" fields = false) :
    Badge_get_transformResponse fromJson convert raw =
      (convert JsVal.undefined).map (fun d => JsVal.obj (fields ++ [("earnedAt", d)])) ∧
    (∀ d, convert JsVal.undefined = Except.ok d →
      Badge_get_transformResponse fromJson convert raw =
          Except.ok (JsVal.obj (fields ++ [("earnedAt", d)])) ∧
        (JsVal.obj (fields ++ [("earnedAt", d)])).hasOwn "earnedAt" = true ∧
        (JsVal.obj (fields ++ [("earnedAt", d)])).member "earnedAt" = d) ∧
    (∀ fields₂ out, fromJson raw = Except.ok (JsVal.obj fields₂) →
      Badge_get_transformResponse fromJson convert raw = Except.ok out →
      out.hasOwn "earnedAt" = true) := by
  have hmain : Badge_get_transformResponse fromJson convert raw =
      (convert JsVal.undefined).map (fun d => JsVal.obj (fields ++ [("earnedAt", d)])) := by
    rw [badge_get_on_object fromJson convert raw fields hparse,
      Props.get_of_has_eq_false _ _ habsent]
    congr 1
    funext d
    rw [Props.set_of_has_eq_false _ _ _ habsent]
  refine ⟨hmain, ?_, ?_⟩
  · intro d hd
    refine ⟨by rw [hmain, hd]; rfl, ?_, ?_⟩
    · rw [← Props.set_of_has_eq_false _ d _ habsent]
      exact Props.has_set_same _ _ _
    · rw [← Props.set_of_has_eq_false _ d _ habsent]
      exact Props.get_set_same _ _ _
  · intro fields₂ out hparse₂ hout
    rw [badge_get_on_object fromJson convert raw fields₂ hparse₂] at hout
    cases hc : convert (Props.get "earnedAt" fields₂) with
    | error e => rw [hc] at hout; cases hout
    | ok d =>
      rw [hc] at hout
      injection hout with hout
      subst hout
      exact Props.has_set_same _ _ _

/-- Witness for C9: the body `{"id":1}` comes back with an
`earnedAt` field holding what the sample conversion answers for `undefined`. -/
theorem badge_get_adds_missing_earnedAt_witness :
    sampleFromJson sampleIdBody = Except.ok (JsVal.obj [("id", JsVal.num 1)]) ∧
    Props.has "earnedAt" [("id", JsVal.num 1)] = false ∧
    Badge_get_transformResponse sampleFromJson sampleConvert sampleIdBody =
      Except.ok (JsVal.obj [("id", JsVal.num 1), ("earnedAt", JsVal.null)]) :=
  ⟨rfl, rfl,
    (badge_get_adds_missing_earnedAt sampleFromJson sampleConvert sampleIdBody
      [("id", JsVal.num 1)] rfl rfl).1.trans rfl⟩

/-- C10: when every value the parser returns is a JSON value, the Badge `get` transform
returns exactly when the body parses to a plain object or an array and the date conversion
of its `earnedAt` returns.  On a body that parses to `null` it raises a `TypeError`; on one
that parses to a boolean, number or string it raises too, with a `TypeError` from the
strict-mode assignment once the conversion has returned.  The TypeOfBadge `get` transform
returns the parsed value of every body that parses. -/
theorem badge_get_returns_iff (fromJson : FromJson) (convert : ConvertDateTime)
    (hjson : ∀ s v, fromJson s = Except.ok v → v.isJson = true) (raw : String) :
    ((∃ out, Badge_get_transformResponse fromJson convert raw = Except.ok out) ↔
      ∃ v, fromJson raw = Except.ok v ∧ (v.isObject = true ∨ v.isArray = true) ∧
        ∃ d, convert (v.member "earnedAt") = Except.ok d) ∧
    (∀ v, fromJson raw = Except.ok v → v = JsVal.null ∨ v.isPrimitive = true →
      ∃ e, Badge_get_transformResponse fromJson convert raw = Except.error e) ∧
    (fromJson raw = Except.ok JsVal.null →
      Badge_get_transformResponse fromJson convert raw = Except.error JsError.typeError) ∧
    (∀ v d, fromJson raw = Except.ok v → v.isPrimitive = true →
      convert JsVal.undefined = Except.ok d →
      Badge_get_transformResponse fromJson convert raw = Except.error JsError.typeError) ∧
    (∀ v, fromJson raw = Except.ok v →
      TypeOfBadge_get_transformResponse fromJson raw = Except.ok v) := by
  refine ⟨?_, ?_, ?_, ?_, ?_⟩
  · cases hp : fromJson raw with
    | error e =>
      simp [Badge_get_transformResponse, hp, bind, Except.bind]
    | ok v =>
      have hj := hjson raw v hp
      rw [badge_get_of_parse fromJson convert raw v hp]
      cases v with
      | undefined => simp [JsVal.isJson] at hj
      | date ms props => simp [JsVal.isJson] at hj
      | null => simp [JsVal.getMember, bind, Except.bind, JsVal.isObject, JsVal.isArray]
      | bool b =>
        cases hc : convert JsVal.undefined <;>
          simp [JsVal.getMember, JsVal.setMember, JsVal.member, JsVal.ownProps, Props.get, bind,
            Except.bind, JsVal.isObject, JsVal.isArray, hc]
      | num n =>
        cases hc : convert JsVal.undefined <;>
          simp [JsVal.getMember, JsVal.setMember, JsVal.member, JsVal.ownProps, Props.get, bind,
            Except.bind, JsVal.isObject, JsVal.isArray, hc]
      | str s =>
        cases hc : convert JsVal.undefined <;>
          simp [JsVal.getMember, JsVal.setMember, JsVal.member, JsVal.ownProps, Props.get, bind,
            Except.bind, JsVal.isObject, JsVal.isArray, hc]
      | obj props =>
        cases hc : convert (Props.get "earnedAt" props) <;>
          simp [JsVal.getMember, JsVal.setMember, JsVal.member, JsVal.ownProps, bind,
            Except.bind, JsVal.isObject, JsVal.isArray, hc]
      | arr items props =>
        cases hc : convert (Props.get "earnedAt" props) <;>
          simp [JsVal.getMember, JsVal.setMember, JsVal.member, JsVal.ownProps, bind,
            Except.bind, JsVal.isObject, JsVal.isArray, hc]
  · intro v hp hv
    rw [badge_get_of_parse fromJson convert raw v hp]
    rcases hv with rfl | hv
    · exact ⟨JsError.typeError, rfl⟩
    · cases v <;> simp [JsVal.isPrimitive] at hv <;>
        (cases hc : convert JsVal.undefined <;>
          simp [JsVal.getMember, JsVal.setMember, JsVal.member, JsVal.ownProps, Props.get, bind,
            Except.bind, hc])
  · intro hp
    rw [badge_get_of_parse fromJson convert raw JsVal.null hp]
    rfl
  · intro v d hp hv hd
    rw [badge_get_of_parse fromJson convert raw v hp]
    cases v <;> simp [JsVal.isPrimitive] at hv <;>
      simp [JsVal.getMember, JsVal.setMember, JsVal.member, JsVal.ownProps, Props.get, bind,
        Except.bind, hd]
  · intro v hp
    simp [TypeOfBadge_get_transformResponse, hp, bind, Except.bind, pure, Except.pure]

/-- Witness for C10: with the sample parser, the body `null` makes the
Badge `get` transform raise a `TypeError`. -/
theorem badge_get_returns_iff_witness :
    (∀ s v, sampleFromJson s = Except.ok v → v.isJson = true) ∧
    Badge_get_transformResponse sampleFromJson sampleConvert "null" =
      Except.error JsError.typeError :=
  ⟨sampleFromJson_isJson,
    (badge_get_returns_iff sampleFromJson sampleConvert sampleFromJson_isJson "null").2.2.1 rfl⟩

/-- C7: the TypeOfBadge `get` transform (the one the `TypeOfBadge` resource declares for
`get`) gives on every body exactly what `angular.fromJson` gives: the parsed value,
unchanged, when the body parses, and the error of the parser when it does not. -/
theorem type_of_badge_get_is_parse (fromJson : FromJson) (raw : String) :
    (TypeOfBadge fromJson).transformOf "get" =
      some (TypeOfBadge_get_transformResponse fromJson) ∧
    TypeOfBadge_get_transformResponse fromJson raw = fromJson raw ∧
    ∀ v, fromJson raw = Except.ok v →
      TypeOfBadge_get_transformResponse fromJson raw = Except.ok v := by
  have h : TypeOfBadge_get_transformResponse fromJson raw = fromJson raw := by
    unfold TypeOfBadge_get_transformResponse
    cases fromJson raw <;> rfl
  exact ⟨rfl, h, fun v hv => h.trans hv⟩

/-- What the two factories declare for `query`: a `GET` array action without a
`transformResponse`, whatever parser and date conversion are injected; the date conversion
occurs in the `get` action of Badge only. -/
theorem query_declares_no_transform (fromJson : FromJson) (convert : ConvertDateTime) :
    ((Badge fromJson convert).action "query").map
        (fun a => (a.method, a.isArray, a.transformResponse.isNone)) =
      some ("GET", true, true) ∧
    ((TypeOfBadge fromJson).action "query").map
        (fun a => (a.method, a.isArray, a.transformResponse.isNone)) =
      some ("GET", true, true) ∧
    (Badge fromJson convert).transformOf "query" = none ∧
    (TypeOfBadge fromJson).transformOf "query" = none :=
  ⟨rfl, rfl, rfl, rfl⟩

end Bp
